import Mathlib

/-!
Shallow embedding of the catalog ingestion and in-memory query engine of
`src/app.py` (the Wikipedia Book API), together with theorems checking the
natural-language specification against it.

The embedding covers:
* the Record Decoder and Catalog Loader (`load_books_data`, app.py lines 289-376),
* the Query Engine: pagination (`get_all_books`, lines 397-429) and
  multi-field substring search (`search_books`, lines 435-470).
-/

/-- JSON values, as produced by the `json.loads` call of the loader.
`json.loads` itself is an external library routine; a raw source line is
modelled as `Option Json`, with `none` standing for a line whose parse
raises `JSONDecodeError`. -/
inductive Json where
  | null
  | bool (b : Bool)
  | num (n : Int)
  | str (s : String)
  | arr (elems : List Json)
  | obj (fields : List (String × Json))

/-- A decoded book record as built by the loader (app.py lines 339-349):
the nine fixed fields are copied from the source mapping via `dict.get`
with default `''`; the stored values are the raw JSON values. -/
structure LoaderBook where
  name : Json
  author : Json
  language : Json
  genre : Json
  publisher : Json
  release_date : Json
  media_type : Json
  pages : Json
  isbn : Json

/-- Python `dict.get(key, '')` on the decoded object: the value bound to
`key`, or the string `''` when the key is absent. Keys of a Python dict
are unique, so the first binding found is the binding. -/
def dictGet (fields : List (String × Json)) (key : String) : Json :=
  match fields.find? (fun p => p.1 == key) with
  | some p => p.2
  | none => Json.str ""

/-- The projection of a decoded `book_data` mapping onto the nine fixed
fields (app.py lines 339-349); extra keys are dropped. -/
def decodeBook (fields : List (String × Json)) : LoaderBook :=
  { name := dictGet fields "name"
    author := dictGet fields "author"
    language := dictGet fields "language"
    genre := dictGet fields "genre"
    publisher := dictGet fields "publisher"
    release_date := dictGet fields "release_date"
    media_type := dictGet fields "media_type"
    pages := dictGet fields "pages"
    isbn := dictGet fields "isbn" }

/-- Outcome of handling one raw line inside the loader's per-line `try`
block (app.py lines 330-354). -/
inductive LineResult where
  /-- The line is counted as an error and the loop continues: either
  `json.loads` raised `JSONDecodeError` (caught at line 351), or the
  `isinstance`/length guard at line 333 failed. -/
  | skip
  /-- The line decoded to a book record, appended to `loaded_books`. -/
  | record (b : LoaderBook)
  /-- An exception not caught by the per-line handler escapes: the parsed
  line is an array of length ≥ 2 whose second element is not a mapping,
  so `book_data.get(...)` raises `AttributeError`, which is not in the
  `(json.JSONDecodeError, IndexError)` catch list. -/
  | abort

/-- One iteration of the loader's line loop (app.py lines 330-354). -/
def processLine (line : Option Json) : LineResult :=
  match line with
  | none => .skip
  | some (Json.arr elems) =>
    match elems with
    | _ :: second :: _ =>
      match second with
      | Json.obj fields => .record (decodeBook fields)
      | _ => .abort
    | _ => .skip
  | some _ => .skip

/-- The loader's line loop (app.py lines 327-354): state is
`(loaded_books, line_count, error_count)`; an uncaught per-line exception
aborts the loop and propagates to the outer handler (`Except.error`). -/
def parseLines : List (Option Json) → List LoaderBook → Nat → Nat →
    Except Unit (List LoaderBook × Nat × Nat)
  | [], acc, lineCount, errCount => Except.ok (acc, lineCount, errCount)
  | l :: rest, acc, lineCount, errCount =>
    match processLine l with
    | .skip => parseLines rest acc (lineCount + 1) (errCount + 1)
    | .record b => parseLines rest (acc ++ [b]) (lineCount + 1) errCount
    | .abort => Except.error ()

/-- The environment `load_books_data` interacts with: the local data file
and the remote LFS URL. `isLfsPointer` models the check
`content.strip().startswith('version https://git-lfs')` on the file's raw
text (app.py line 306); `fileLines` is the same content seen as parsed
lines; `fetchOk` tells whether `requests.get` succeeds. -/
structure LoadEnv where
  fileExists : Bool
  isLfsPointer : Bool
  fileLines : List (Option Json)
  remoteIsLfsPointer : Bool
  remoteLines : List (Option Json)
  fetchOk : Bool

/-- `load_books_data` (app.py lines 289-376). The Python function is
recursive with no depth bound (line 317: `return load_books_data()` after
an LFS download), so the embedding takes explicit fuel; a result of
`none` means the fuel ran out, i.e. the Python call would still be
recursing at that depth. The `List LoaderBook` argument is the global
`books` list as it stands when the function is entered; the result
carries the flag returned, the environment after any download, and the
final value of the global `books` list. Line 293 (`books = []`) rebinds
the global to an empty list before any check is made. -/
def load_books_data : Nat → LoadEnv → List LoaderBook →
    Option (Bool × LoadEnv × List LoaderBook)
  | 0, _, _ => none
  | fuel + 1, env, _prior =>
    let books : List LoaderBook := []
    if env.fileExists = false then
      some (false, env, books)
    else if env.isLfsPointer then
      if env.fetchOk then
        load_books_data fuel
          { env with fileLines := env.remoteLines,
                     isLfsPointer := env.remoteIsLfsPointer } books
      else
        some (false, env, books)
    else
      match parseLines env.fileLines [] 0 0 with
      | Except.error _ => some (false, env, books)
      | Except.ok (loaded, _, _) =>
        if loaded.isEmpty then some (false, env, books)
        else some (true, env, loaded)

/-- A catalog record as served by the query engine. Every record built by
the loader is a mapping with exactly the nine fixed keys, normalized to
text (data model §3); the query engine reads `str(book[field])`, so the
fields are carried as strings here. -/
structure Book where
  name : String
  author : String
  language : String
  genre : String
  publisher : String
  release_date : String
  media_type : String
  pages : String
  isbn : String
deriving DecidableEq

/-- The key set of every loaded book dict: `books[0].keys()` in
`search_books` (app.py line 451) is always exactly these nine names,
since the loader builds each dict with precisely these keys. -/
def bookKeys : List String :=
  ["name", "author", "language", "genre", "publisher",
   "release_date", "media_type", "pages", "isbn"]

/-- `book[field]` for a field of the fixed vocabulary; the default branch
is unreachable once `field ∈ books[0].keys()` has been checked. -/
def getField (b : Book) (f : String) : String :=
  if f = "name" then b.name
  else if f = "author" then b.author
  else if f = "language" then b.language
  else if f = "genre" then b.genre
  else if f = "publisher" then b.publisher
  else if f = "release_date" then b.release_date
  else if f = "media_type" then b.media_type
  else if f = "pages" then b.pages
  else if f = "isbn" then b.isbn
  else ""

/-- Python `s.lower()` as a character list: character-wise lowercasing. -/
def lowerStr (s : String) : List Char :=
  s.data.map Char.toLower

/-- The search predicate of app.py line 458:
`str(value).lower() in str(book[field]).lower()` — the lowercased query
value occurs as a contiguous substring of the lowercased field value. -/
def bookMatches (b : Book) (f v : String) : Bool :=
  decide (lowerStr v <:+: lowerStr (getField b f))

/-- The possible outcomes of `search_books` (app.py lines 435-470):
`emptyCriteria` is the 400 "No search parameters provided" response,
`noData` the 500 "No books available" response, `invalidField f` the 400
"Invalid field: f" response, and `ok` the 200 response carrying the
matching records and their count. -/
inductive SearchResult where
  | emptyCriteria
  | noData
  | invalidField (f : String)
  | ok (books : List Book) (total : Nat)
deriving DecidableEq

/-- The filtering loop of `search_books` (app.py lines 449-460): for each
criterion in order, reject the query if the key is outside the fixed
vocabulary, otherwise narrow the current match list. -/
def applyFilters : List Book → List (String × String) → SearchResult
  | filtered, [] => .ok filtered filtered.length
  | filtered, (f, v) :: rest =>
    if f ∈ bookKeys then
      applyFilters (filtered.filter (fun b => bookMatches b f v)) rest
    else
      .invalidField f

/-- `search_books` (app.py lines 435-470): query parameters are the
ordered key/value pairs of the request (a Python dict, so keys are
distinct and iterate in insertion order). -/
def search_books (books : List Book) (queryParams : List (String × String)) :
    SearchResult :=
  if queryParams.isEmpty then .emptyCriteria
  else if books.isEmpty then .noData
  else applyFilters books queryParams

/-- The body of the 200 response of `get_all_books` (app.py lines
423-429). `page`, `limit` and `total_pages` are the effective
(coerced/clamped) values, all provably non-negative, carried as `Nat`. -/
structure PageResult where
  books : List Book
  total : Nat
  page : Nat
  limit : Nat
  total_pages : Nat
deriving DecidableEq

/-- The pagination computation of `get_all_books` on a non-empty catalog
(app.py lines 405-429). `limit` and `page` are the Python ints from the
query string. All divisions are on non-negative operands, where Python's
floor division `//` is `Nat` division. The slice `books[start:end]` with
`0 ≤ start ≤ end ≤ len(books)` is `(books.drop start).take (end - start)`. -/
def paginate (books : List Book) (limit page : Int) : PageResult :=
  let lim : Nat := if limit < 1 then 100 else limit.toNat
  let total : Nat := books.length
  let total_pages : Nat := (total + lim - 1) / lim
  let pg : Nat :=
    if page < 1 then 1
    else if (total_pages : Int) < page then total_pages
    else page.toNat
  let start_idx : Nat := (pg - 1) * lim
  let end_idx : Nat := min (start_idx + lim) total
  { books := (books.drop start_idx).take (end_idx - start_idx)
    total := total
    page := pg
    limit := lim
    total_pages := (total + lim - 1) / lim }

/-- `get_all_books` (app.py lines 397-429): an empty catalog yields the
500 "No books available" response (`none`); otherwise the paginated
200 response. -/
def get_all_books (books : List Book) (limit page : Int) : Option PageResult :=
  if books.isEmpty then none
  else some (paginate books limit page)

/-! ### Concrete loader scenarios -/

/-- A record decoded from a well-formed sample line. -/
def sampleLoaderBook : LoaderBook :=
  decodeBook [("name", Json.str "Test Book")]

/-- A well-formed raw line: a 2-element array whose second element is a
mapping. -/
def goodLine : Option Json :=
  some (Json.arr [Json.str "meta", Json.obj [("name", Json.str "Test Book")]])

/-- A raw line that is an array of length 2 whose second element is a
number, not a mapping. -/
def badShapeLine : Option Json :=
  some (Json.arr [Json.str "meta", Json.num 2])

/-- A raw line whose `json.loads` fails (malformed syntax). -/
def malformedJsonLine : Option Json := none

/-- Environment with the local data file absent. -/
def envMissingFile : LoadEnv :=
  { fileExists := false, isLfsPointer := false, fileLines := [],
    remoteIsLfsPointer := false, remoteLines := [], fetchOk := true }

/-- Environment where the local file is an LFS pointer and the remote URL
persistently serves LFS pointer content as well. -/
def envPersistentLfs : LoadEnv :=
  { fileExists := true, isLfsPointer := true, fileLines := [],
    remoteIsLfsPointer := true, remoteLines := [], fetchOk := true }

/-- Environment whose data file holds one valid line followed by a line
whose second element is not a mapping. -/
def envBadShape : LoadEnv :=
  { fileExists := true, isLfsPointer := false,
    fileLines := [goodLine, badShapeLine],
    remoteIsLfsPointer := false, remoteLines := [], fetchOk := true }

/-- Environment whose data file holds two valid lines with a
non-mapping-second-element line between them. -/
def envBadShapeAmongThree : LoadEnv :=
  { fileExists := true, isLfsPointer := false,
    fileLines := [goodLine, badShapeLine, goodLine],
    remoteIsLfsPointer := false, remoteLines := [], fetchOk := true }

/-- Environment whose data file holds two valid lines with a
syntax-error line between them. -/
def envMalformedJsonAmongThree : LoadEnv :=
  { fileExists := true, isLfsPointer := false,
    fileLines := [goodLine, malformedJsonLine, goodLine],
    remoteIsLfsPointer := false, remoteLines := [], fetchOk := true }

/-- Every failed run of `load_books_data` leaves the global `books` list
empty, whatever it held before the call: line 293 rebinds the global to
`[]` before any check, and every `return False` path leaves it so. -/
theorem load_fail_clears_books (fuel : Nat) :
    ∀ (env : LoadEnv) (prior : List LoaderBook) (env' : LoadEnv)
      (books' : List LoaderBook),
      load_books_data fuel env prior = some (false, env', books') →
      books' = [] := by
  induction fuel with
  | zero => intro env prior env' books' h; simp [load_books_data] at h
  | succ n ih =>
    intro env prior env' books' h
    unfold load_books_data at h
    by_cases hex : env.fileExists = false
    · simp [hex] at h; exact h.2
    · simp [hex] at h
      by_cases hlfs : env.isLfsPointer
      · simp [hlfs] at h
        by_cases hfetch : env.fetchOk
        · simp [hfetch] at h
          exact ih _ _ _ _ h
        · simp [hfetch] at h; exact h.2
      · simp [hlfs] at h
        cases hp : parseLines env.fileLines [] 0 0 with
        | error e => simp [hp] at h; exact h.2
        | ok res =>
          obtain ⟨loaded, lc, ec⟩ := res
          simp [hp] at h
          by_cases hemp : loaded.isEmpty
          · simp [hemp] at h; exact h.2
          · simp [hemp] at h

/-- Environment whose data file exists, is not an LFS pointer, and whose
single line decodes to no valid record (wrong arity). -/
def envZeroValid : LoadEnv :=
  { fileExists := true, isLfsPointer := false,
    fileLines := [some (Json.arr [Json.str "only-one-element"])],
    remoteIsLfsPointer := false, remoteLines := [], fetchOk := true }

/-- Environment where the local file is an LFS pointer and the remote
fetch raises a network error. -/
def envFetchFail : LoadEnv :=
  { fileExists := true, isLfsPointer := true, fileLines := [],
    remoteIsLfsPointer := false, remoteLines := [], fetchOk := false }

/-- C1: the claim says a failed load leaves the catalog at its prior
state. The code instead rebinds the global `books` list to `[]` at entry
(app.py line 293), so each failing mode — file absent, fetch error, zero
valid records — returns `False` with the catalog emptied, destroying the
prior (non-empty) contents. -/
theorem c1_failed_load_wipes_prior_catalog :
    load_books_data 1 envMissingFile [sampleLoaderBook] =
      some (false, envMissingFile, []) ∧
    load_books_data 1 envFetchFail [sampleLoaderBook] =
      some (false, envFetchFail, []) ∧
    load_books_data 1 envZeroValid [sampleLoaderBook] =
      some (false, envZeroValid, []) ∧
    ([sampleLoaderBook] : List LoaderBook) ≠ [] :=
  ⟨rfl, rfl, rfl, by simp⟩

/-- C2: the claim says the loader performs a bounded number of
placeholder retries and then fails. The code re-invokes itself
recursively after every download with no depth cap (app.py line 317), so
when the remote persistently serves placeholder content the load never
returns: for every recursion budget `fuel`, evaluation is still
recursing (`none`), whatever the prior catalog was. -/
theorem c2_persistent_placeholder_retry_never_terminates :
    ∀ (fuel : Nat) (prior : List LoaderBook),
      load_books_data fuel envPersistentLfs prior = none := by
  intro fuel
  induction fuel with
  | zero => intro prior; rfl
  | succ n ih =>
    intro prior
    calc load_books_data (n + 1) envPersistentLfs prior
        = load_books_data n envPersistentLfs [] := rfl
      _ = none := ih []

/-- C3: the claim says a line parsing as an array of length ≥ 2 whose
second element is not a mapping is a non-fatal decode error. In the code
such a line raises `AttributeError` at `book_data.get(...)`, which the
per-line handler (catching only `JSONDecodeError` and `IndexError`) does
not absorb: the exception reaches the outer handler, the whole load
returns `False`, and the valid line of the same file is not loaded. -/
theorem c3_nonmapping_line_aborts_whole_load :
    processLine badShapeLine = LineResult.abort ∧
    processLine goodLine = LineResult.record sampleLoaderBook ∧
    load_books_data 1 envBadShape [] = some (false, envBadShape, []) :=
  ⟨rfl, rfl, rfl⟩

/-- C7: the claim says one malformed line among N never aborts the load.
That holds for a syntax-error line (first two conjuncts: with lines
[valid, syntax-error, valid] the load succeeds and the catalog holds
exactly the 2 successfully decoded records), but fails for a line whose
second element is not a mapping: with lines [valid, bad-shape, valid]
the load aborts, returns `False`, and loads neither valid line. -/
theorem c7_malformed_line_aborts_load_for_bad_shape :
    processLine malformedJsonLine = LineResult.skip ∧
    load_books_data 1 envMalformedJsonAmongThree [] =
      some (true, envMalformedJsonAmongThree, [sampleLoaderBook, sampleLoaderBook]) ∧
    load_books_data 1 envBadShapeAmongThree [] =
      some (false, envBadShapeAmongThree, []) :=
  ⟨rfl, rfl, rfl⟩

/-! ### Search engine: helper lemmas -/

/-- A sample catalog record (spec §8 example). -/
def hpBook : Book :=
  { name := "Harry Potter and the Chamber of Secrets"
    author := "J. K. Rowling"
    language := "English"
    genre := "Fantasy"
    publisher := "Bloomsbury"
    release_date := "1998"
    media_type := "Print"
    pages := "251"
    isbn := "0-7475-3849-2" }

/-- `List.all` only depends on the members, so it is invariant under
permutation of the list. -/
theorem all_perm {α : Type} {l l' : List α} (P : α → Bool) (h : l.Perm l') :
    l.all P = l'.all P := by
  by_cases hl : l.all P = true
  · rw [hl]; symm; rw [List.all_eq_true] at hl ⊢
    exact fun x hx => hl x (h.mem_iff.mpr hx)
  · have hl' : ¬l'.all P = true := by
      intro hh
      apply hl
      rw [List.all_eq_true] at hh ⊢
      exact fun x hx => hh x (h.mem_iff.mp hx)
    rw [Bool.not_eq_true] at hl hl'
    rw [hl, hl']

/-- When every criterion key is in the fixed vocabulary, the sequential
narrowing loop computes one conjunctive filter over the catalog. -/
theorem applyFilters_valid (l : List (String × String)) :
    ∀ fl : List Book, (∀ p ∈ l, p.1 ∈ bookKeys) →
      applyFilters fl l =
        SearchResult.ok
          (fl.filter (fun b => l.all (fun p => bookMatches b p.1 p.2)))
          (fl.filter (fun b => l.all (fun p => bookMatches b p.1 p.2))).length := by
  induction l with
  | nil =>
    intro fl _
    simp [applyFilters]
  | cons p rest ih =>
    intro fl hv
    obtain ⟨f, v⟩ := p
    have hf : f ∈ bookKeys := hv (f, v) (by simp)
    have hXY :
        (fl.filter (fun b => bookMatches b f v)).filter
            (fun b => rest.all (fun p => bookMatches b p.1 p.2)) =
          fl.filter
            (fun b => ((f, v) :: rest).all (fun p => bookMatches b p.1 p.2)) := by
      rw [List.filter_filter]
      apply List.filter_congr
      intro b _
      simp [Bool.and_comm]
    simp only [applyFilters, if_pos hf]
    rw [ih _ (fun q hq => hv q (List.mem_cons_of_mem _ hq)), hXY]

/-- The narrowing loop only ever removes records: an `ok` outcome is a
sublist of the list the loop started from. -/
theorem applyFilters_ok_sublist (l : List (String × String)) :
    ∀ (fl res : List Book) (t : Nat),
      applyFilters fl l = SearchResult.ok res t → res.Sublist fl := by
  induction l with
  | nil =>
    intro fl res t h
    simp [applyFilters] at h
    rw [← h.1]
  | cons p rest ih =>
    intro fl res t h
    obtain ⟨f, v⟩ := p
    by_cases hf : f ∈ bookKeys
    · simp only [applyFilters, if_pos hf] at h
      exact (ih _ _ _ h).trans (List.filter_sublist fl)
    · simp only [applyFilters, if_neg hf] at h
      simp at h

/-- If the first criterion key outside the fixed vocabulary is `f`, the
loop rejects the query naming exactly `f`. -/
theorem applyFilters_first_invalid (l : List (String × String)) :
    ∀ (fl : List Book) (f v : String),
      l.find? (fun p => !(decide (p.1 ∈ bookKeys))) = some (f, v) →
      applyFilters fl l = SearchResult.invalidField f := by
  induction l with
  | nil => intro fl f v h; simp at h
  | cons p rest ih =>
    intro fl f v h
    obtain ⟨g, w⟩ := p
    by_cases hg : g ∈ bookKeys
    · rw [List.find?_cons_of_neg _ (by simp [hg])] at h
      simp only [applyFilters, if_pos hg]
      exact ih _ f v h
    · rw [List.find?_cons_of_pos _ (by simp [hg])] at h
      simp only [Option.some.injEq, Prod.mk.injEq] at h
      obtain ⟨hgf, hwv⟩ := h
      subst hgf
      simp only [applyFilters, if_neg hg]

/-! ### Search engine: claims -/

/-- C4 as stated is false: with an empty (unloaded) catalog, a query with
an unknown field fails with the "No books available" outcome (the 500
NoDataError at app.py line 442), not with InvalidFieldError — the
catalog-emptiness check precedes field validation. -/
theorem c4_empty_catalog_unknown_field_is_no_data :
    search_books ([] : List Book) [("zzz", "v")] = SearchResult.noData ∧
    SearchResult.noData ≠ SearchResult.invalidField "zzz" :=
  ⟨rfl, by simp⟩

/-- C4 (amended): on a non-empty catalog, whenever the criteria contain a
key outside the nine-field vocabulary, the search fails with
InvalidFieldError naming the first such key — even when combined with
valid fields, and no partial match results are returned. On an empty
catalog the search instead fails with NoDataError before field
validation. -/
theorem c4_unknown_field_always_invalid_on_nonempty_catalog
    (books : List Book) (l : List (String × String)) (f v : String)
    (hb : books ≠ [])
    (hfind : l.find? (fun p => !(decide (p.1 ∈ bookKeys))) = some (f, v)) :
    search_books books l = SearchResult.invalidField f := by
  have hl : l ≠ [] := by
    intro h; subst h; simp at hfind
  unfold search_books
  rw [if_neg (by simp [List.isEmpty_iff, hl]), if_neg (by simp [List.isEmpty_iff, hb])]
  exact applyFilters_first_invalid l books f v hfind

/-- Witness for the amended C4: a catalog of one record, a valid `name`
criterion combined with the unknown key `zzz`. -/
theorem c4_unknown_field_witness :
    search_books [hpBook] [("name", "harry"), ("zzz", "v")] =
      SearchResult.invalidField "zzz" :=
  c4_unknown_field_always_invalid_on_nonempty_catalog [hpBook]
    [("name", "harry"), ("zzz", "v")] "zzz" "v" (by simp) (by decide)

/-- C8: with any catalog — loaded, empty or unloaded — searching with an
empty criteria mapping yields the empty-criteria client error (the 400
"No search parameters provided" at app.py line 440), never NoDataError
and never an empty `ok` result: the emptiness check on the query
parameters is the first check performed. -/
theorem c8_empty_criteria_always_client_error :
    ∀ books : List Book, search_books books [] = SearchResult.emptyCriteria :=
  fun _ => rfl

/-- C6: a record matches a criterion exactly when the lowercased query
value occurs as a substring of the lowercased field value; the empty
query value matches every record (including empty fields); and matching
is case-insensitive — two query values with the same lowercasing match
the same records. -/
theorem c6_match_iff_lowercase_substring (b : Book) (f q q' : String)
    (hf : f ∈ bookKeys) (hq : lowerStr q = lowerStr q') :
    (bookMatches b f q = true ↔ lowerStr q <:+: lowerStr (getField b f)) ∧
    bookMatches b f "" = true ∧
    bookMatches b f q = bookMatches b f q' := by
  refine ⟨decide_eq_true_iff, ?_, ?_⟩
  · exact decide_eq_true List.nil_infix
  · unfold bookMatches
    rw [hq]

/-- Witness for C6: the spec §8 example record, field `name`, query
values `HARRY` and `harry`. -/
theorem c6_match_witness :
    ("name" ∈ bookKeys ∧ lowerStr "HARRY" = lowerStr "harry") ∧
    ((bookMatches hpBook "name" "HARRY" = true ↔
        lowerStr "HARRY" <:+: lowerStr (getField hpBook "name")) ∧
      bookMatches hpBook "name" "" = true ∧
      bookMatches hpBook "name" "HARRY" = bookMatches hpBook "name" "harry") :=
  ⟨⟨by decide, by decide⟩,
    c6_match_iff_lowercase_substring hpBook "name" "HARRY" "harry"
      (by decide) (by decide)⟩

/-- C9: for valid criteria (every key in the fixed vocabulary), the
result of a search does not depend on the order in which the criteria
are applied: any permutation of the same field-to-value bindings yields
the same outcome, with the same final match list. -/
theorem c9_search_invariant_under_criteria_order (books : List Book)
    (l l' : List (String × String))
    (hv : ∀ p ∈ l, p.1 ∈ bookKeys) (hp : l.Perm l') :
    search_books books l = search_books books l' := by
  have hv' : ∀ p ∈ l', p.1 ∈ bookKeys := fun p hmem => hv p (hp.mem_iff.mpr hmem)
  rcases eq_or_ne l [] with hl | hl
  · subst hl
    rw [hp.symm.eq_nil]
  · have hl' : l' ≠ [] := by
      intro h; subst h; exact hl hp.eq_nil
    obtain ⟨a, as, rfl⟩ : ∃ a as, l = a :: as := by
      cases l with
      | nil => exact absurd rfl hl
      | cons a as => exact ⟨a, as, rfl⟩
    obtain ⟨c, cs, rfl⟩ : ∃ c cs, l' = c :: cs := by
      cases l' with
      | nil => exact absurd rfl hl'
      | cons c cs => exact ⟨c, cs, rfl⟩
    simp only [search_books, List.isEmpty_cons, Bool.false_eq_true, if_false]
    by_cases hbooks : books.isEmpty = true
    · rw [if_pos hbooks, if_pos hbooks]
    · rw [if_neg hbooks, if_neg hbooks]
      rw [applyFilters_valid (a :: as) books hv, applyFilters_valid (c :: cs) books hv']
      have hfilter :
          books.filter (fun b => (a :: as).all (fun p => bookMatches b p.1 p.2)) =
            books.filter (fun b => (c :: cs).all (fun p => bookMatches b p.1 p.2)) :=
        List.filter_congr fun b _ => all_perm _ hp
      rw [hfilter]

/-- Witness for C9: two valid criteria in both orders over a one-record
catalog. -/
theorem c9_search_order_witness :
    search_books [hpBook] [("name", "harry"), ("language", "eng")] =
      search_books [hpBook] [("language", "eng"), ("name", "harry")] :=
  c9_search_invariant_under_criteria_order [hpBook]
    [("name", "harry"), ("language", "eng")]
    [("language", "eng"), ("name", "harry")]
    (by decide) (List.Perm.swap _ _ _)

/-- C10: every successful search returns a sublist of the catalog — each
returned record occurs in the catalog, in catalog order, and no record
is returned more often than it occurs. -/
theorem c10_search_result_is_sublist_of_catalog (books : List Book)
    (l : List (String × String)) (res : List Book) (t : Nat)
    (h : search_books books l = SearchResult.ok res t) :
    res.Sublist books := by
  unfold search_books at h
  by_cases h1 : l.isEmpty = true
  · rw [if_pos h1] at h; cases h
  · rw [if_neg h1] at h
    by_cases h2 : books.isEmpty = true
    · rw [if_pos h2] at h; cases h
    · rw [if_neg h2] at h
      exact applyFilters_ok_sublist l books res t h

/-- Witness for C10: a one-record catalog queried by `name=harry`. -/
theorem c10_sublist_witness : List.Sublist [hpBook] [hpBook] :=
  c10_search_result_is_sublist_of_catalog [hpBook] [("name", "harry")]
    [hpBook] 1 (by decide)

/-! ### Pagination: claim C5 -/

/-- C5: on a non-empty catalog, `get_all_books` answers with a page
where: a non-positive limit is coerced to 100 (a positive one kept);
`total` is the catalog size; `total_pages` is the ceiling of
total/limit (characterized by `total ≤ total_pages * limit` and
`total_pages * limit < total + limit`); the requested page is clamped
into `[1, total_pages]` (below 1 becomes 1, above becomes total_pages,
in-range kept); and the records returned are the catalog slice starting
at index `(page - 1) * limit`, of at most `limit` records. -/
theorem c5_pagination_contract (books : List Book) (limit page : Int)
    (r : PageResult) (hb : books ≠ [])
    (hr : get_all_books books limit page = some r) :
    (limit < 1 → r.limit = 100) ∧
    (1 ≤ limit → r.limit = limit.toNat) ∧
    r.total = books.length ∧
    books.length ≤ r.total_pages * r.limit ∧
    r.total_pages * r.limit < books.length + r.limit ∧
    1 ≤ r.page ∧
    r.page ≤ r.total_pages ∧
    (page < 1 → r.page = 1) ∧
    ((r.total_pages : Int) < page → r.page = r.total_pages) ∧
    (1 ≤ page → page ≤ (r.total_pages : Int) → r.page = page.toNat) ∧
    r.books = (books.drop ((r.page - 1) * r.limit)).take r.limit ∧
    r.books.length ≤ r.limit := by
  have hbe : books.isEmpty = false := by
    cases books with
    | nil => exact absurd rfl hb
    | cons a as => rfl
  have hr' : r = paginate books limit page := by
    unfold get_all_books at hr
    rw [hbe] at hr
    simp at hr
    exact hr.symm
  have hLdef : r.limit = if limit < 1 then 100 else limit.toNat := by
    rw [hr']; rfl
  have hL1 : 1 ≤ r.limit := by
    rw [hLdef]
    by_cases h : limit < 1
    · rw [if_pos h]; omega
    · rw [if_neg h]; omega
  have htotaldef : r.total = books.length := by rw [hr']; rfl
  have htotal1 : 1 ≤ books.length := List.length_pos.mpr hb
  have hTPdef : r.total_pages = (books.length + r.limit - 1) / r.limit := by
    rw [hr']; rfl
  have hTP1 : 1 ≤ r.total_pages := by
    rw [hTPdef]
    exact (Nat.one_le_div_iff (by omega)).mpr (by omega)
  have hkey := Nat.div_add_mod (books.length + r.limit - 1) r.limit
  have hmod : (books.length + r.limit - 1) % r.limit < r.limit :=
    Nat.mod_lt _ (by omega)
  have hceil1 : books.length ≤ r.total_pages * r.limit := by
    rw [hTPdef, Nat.mul_comm]
    generalize hA : r.limit * ((books.length + r.limit - 1) / r.limit) = A at hkey ⊢
    omega
  have hceil2 : r.total_pages * r.limit < books.length + r.limit := by
    rw [hTPdef, Nat.mul_comm]
    generalize hA : r.limit * ((books.length + r.limit - 1) / r.limit) = A at hkey ⊢
    omega
  have hpagedef : r.page =
      if page < 1 then 1
      else if (r.total_pages : Int) < page then r.total_pages
      else page.toNat := by
    rw [hr']; rfl
  have hpg1 : 1 ≤ r.page := by
    rw [hpagedef]
    by_cases h1 : page < 1
    · rw [if_pos h1]
    · rw [if_neg h1]
      by_cases h2 : (r.total_pages : Int) < page
      · rw [if_pos h2]; exact hTP1
      · rw [if_neg h2]; omega
  have hpg2 : r.page ≤ r.total_pages := by
    rw [hpagedef]
    by_cases h1 : page < 1
    · rw [if_pos h1]; exact hTP1
    · rw [if_neg h1]
      by_cases h2 : (r.total_pages : Int) < page
      · rw [if_pos h2]
      · rw [if_neg h2]; omega
  have hbooksdef : r.books =
      (books.drop ((r.page - 1) * r.limit)).take
        (min ((r.page - 1) * r.limit + r.limit) books.length -
          (r.page - 1) * r.limit) := by
    rw [hr']; rfl
  have hslice : r.books = (books.drop ((r.page - 1) * r.limit)).take r.limit := by
    rw [hbooksdef]
    rcases Nat.le_total ((r.page - 1) * r.limit + r.limit) books.length with hle | hle
    · rw [Nat.min_eq_left hle]
      congr 1
      omega
    · rw [Nat.min_eq_right hle]
      have hlen : (books.drop ((r.page - 1) * r.limit)).length =
          books.length - (r.page - 1) * r.limit :=
        List.length_drop _ _
      have h2 : (books.drop ((r.page - 1) * r.limit)).length ≤ r.limit := by
        rw [hlen]; omega
      rw [List.take_of_length_le h2, ← hlen, List.take_length]
  have hlenle : r.books.length ≤ r.limit := by
    rw [hslice, List.length_take]
    exact min_le_left _ _
  refine ⟨fun h => by rw [hLdef, if_pos h],
    fun h => by rw [hLdef, if_neg (by omega)],
    htotaldef, hceil1, hceil2, hpg1, hpg2,
    fun h => by rw [hpagedef, if_pos h],
    fun h => by rw [hpagedef, if_neg (by omega), if_pos h],
    fun h1 h2 => by rw [hpagedef, if_neg (by omega), if_neg (by omega)],
    hslice, hlenle⟩

/-- Witness for C5: a five-record catalog (the spec's record repeated),
a non-positive limit (coerced to 100) and an out-of-range page. -/
theorem c5_pagination_witness :
    ((List.replicate 5 hpBook : List Book) ≠ [] ∧
      get_all_books (List.replicate 5 hpBook) (-3) 7 =
        some (paginate (List.replicate 5 hpBook) (-3) 7)) ∧
    (((-3 : Int) < 1 → (paginate (List.replicate 5 hpBook) (-3) 7).limit = 100) ∧
      (1 ≤ (-3 : Int) →
        (paginate (List.replicate 5 hpBook) (-3) 7).limit = (-3 : Int).toNat) ∧
      (paginate (List.replicate 5 hpBook) (-3) 7).total =
        (List.replicate 5 hpBook : List Book).length ∧
      (List.replicate 5 hpBook : List Book).length ≤
        (paginate (List.replicate 5 hpBook) (-3) 7).total_pages *
          (paginate (List.replicate 5 hpBook) (-3) 7).limit ∧
      (paginate (List.replicate 5 hpBook) (-3) 7).total_pages *
          (paginate (List.replicate 5 hpBook) (-3) 7).limit <
        (List.replicate 5 hpBook : List Book).length +
          (paginate (List.replicate 5 hpBook) (-3) 7).limit ∧
      1 ≤ (paginate (List.replicate 5 hpBook) (-3) 7).page ∧
      (paginate (List.replicate 5 hpBook) (-3) 7).page ≤
        (paginate (List.replicate 5 hpBook) (-3) 7).total_pages ∧
      ((7 : Int) < 1 → (paginate (List.replicate 5 hpBook) (-3) 7).page = 1) ∧
      (((paginate (List.replicate 5 hpBook) (-3) 7).total_pages : Int) < 7 →
        (paginate (List.replicate 5 hpBook) (-3) 7).page =
          (paginate (List.replicate 5 hpBook) (-3) 7).total_pages) ∧
      (1 ≤ (7 : Int) →
        (7 : Int) ≤ ((paginate (List.replicate 5 hpBook) (-3) 7).total_pages : Int) →
        (paginate (List.replicate 5 hpBook) (-3) 7).page = (7 : Int).toNat) ∧
      (paginate (List.replicate 5 hpBook) (-3) 7).books =
        ((List.replicate 5 hpBook : List Book).drop
            (((paginate (List.replicate 5 hpBook) (-3) 7).page - 1) *
              (paginate (List.replicate 5 hpBook) (-3) 7).limit)).take
          (paginate (List.replicate 5 hpBook) (-3) 7).limit ∧
      (paginate (List.replicate 5 hpBook) (-3) 7).books.length ≤
        (paginate (List.replicate 5 hpBook) (-3) 7).limit) :=
  ⟨⟨by simp, rfl⟩,
    c5_pagination_contract (List.replicate 5 hpBook) (-3) 7
      (paginate (List.replicate 5 hpBook) (-3) 7) (by simp) rfl⟩
